import Mathlib

/-!
Verification of the FinSync360 ML service (`src/ml-service`).

The Python source is shallowly embedded: pure computations become Lean
functions over `ℚ` / `List`, stateful methods become explicit
state-passing functions, and fallible paths return `Option` / `Except`
or carry an explicit error component.  Floating-point numbers in the
source are modelled by rationals; the square root used inside the
scikit-learn `StandardScaler` is passed in as an explicit function
parameter.
-/

namespace MLService

/-! ## Definitions

### PredictionService: risk levels and customer risk
(`services/prediction_service.py`) -/

/-- Embeds `PredictionService._calculate_risk_level`
(prediction_service.py lines 386-393): probability ≥ 0.7 → High,
≥ 0.4 → Medium, otherwise Low. -/
def calculate_risk_level (probability : ℚ) : String :=
  if probability ≥ 7/10 then "High"
  else if probability ≥ 4/10 then "Medium"
  else "Low"

/-- Embeds the slice of the response built by
`PredictionService.predict_payment_delay` (lines 84-98) that depends
only on the delay probability returned by the model: the risk level
and the confidence score `max(p, 1 - p)`. -/
structure DelayPredictionResponse where
  delay_probability : ℚ
  risk_level : String
  confidence_score : ℚ
deriving Repr, DecidableEq

/-- Embeds the `predict_payment_delay` response fields computed from
the delay probability (prediction_service.py lines 84-98). -/
def predict_payment_delay_response (p : ℚ) : DelayPredictionResponse :=
  { delay_probability := p
    risk_level := calculate_risk_level p
    confidence_score := max p (1 - p) }

/-- Embeds the `PredictionService.assess_customer_risk` risk-score
computation (prediction_service.py lines 234-290).  `history` is the
list of `isLate` flags of the trailing payments of the customer (at
most 50, fetched by `_get_customer_payment_history`).  Returns the
published `(risk_score, risk_level)` pair: the score is accumulated
additively (+0.3 for utilization > 0.8 when a positive credit limit
exists, +0.4 for a late ratio > 0.2 over a non-empty history, +0.2 for
outstanding > 0.5 × credit limit), the level is taken from the
unclamped score, and the returned score is `min(score, 1.0)`. -/
def assess_customer_risk (creditLimit outstanding : ℚ) (history : List Bool) :
    ℚ × String :=
  let s1 : ℚ :=
    if creditLimit > 0 then
      (if outstanding / creditLimit > 4/5 then 3/10 else 0)
    else 0
  let s2 : ℚ :=
    if history ≠ [] then
      (if ((history.countP (fun b => b) : ℕ) : ℚ) / (history.length : ℚ) > 1/5
        then 4/10 else 0)
    else 0
  let s3 : ℚ := if outstanding > creditLimit * (1/2) then 1/5 else 0
  let risk_score := s1 + s2 + s3
  let risk_level :=
    if risk_score ≥ 7/10 then "High"
    else if risk_score ≥ 4/10 then "Medium"
    else "Low"
  (min risk_score 1, risk_level)

/-! ### PredictionService: bulk payment-delay prediction
(`services/prediction_service.py` lines 104-148) -/

/-- Embeds the fields of a single-customer prediction that the bulk
path reads: `predict_payment_delay_bulk` uses `risk_level` for the
tier counters and `delay_probability` for the mean. -/
structure DelayPrediction where
  delay_probability : ℚ
  risk_level : String
deriving Repr, DecidableEq

/-- Embeds the `summary` dict of `predict_payment_delay_bulk`
(prediction_service.py lines 136-143). -/
structure BulkSummary where
  total_customers : ℕ
  successful_predictions : ℕ
  high_risk_customers : ℕ
  medium_risk_customers : ℕ
  low_risk_customers : ℕ
  average_delay_probability : ℚ
deriving Repr, DecidableEq

/-- Embeds the return value of `predict_payment_delay_bulk`
(lines 145-148). -/
structure BulkResult where
  predictions : List DelayPrediction
  summary : BulkSummary
deriving Repr, DecidableEq

/-- Embeds one iteration of the loop in `predict_payment_delay_bulk`
(prediction_service.py lines 116-134): `single` is the per-customer
path `predict_payment_delay`, whose failure for an id (`none`) is
logged and skipped (`continue`); a success is appended and exactly one
tier counter is incremented by the if/elif/else on `risk_level`. -/
def bulk_step (single : String → Option DelayPrediction)
    (acc : List DelayPrediction × ℕ × ℕ × ℕ) (customer_id : String) :
    List DelayPrediction × ℕ × ℕ × ℕ :=
  match single customer_id with
  | none => acc
  | some prediction =>
    let counts :=
      if prediction.risk_level = "High" then (acc.2.1 + 1, acc.2.2.1, acc.2.2.2)
      else if prediction.risk_level = "Medium" then (acc.2.1, acc.2.2.1 + 1, acc.2.2.2)
      else (acc.2.1, acc.2.2.1, acc.2.2.2 + 1)
    (acc.1 ++ [prediction], counts)

/-- Embeds `PredictionService.predict_payment_delay_bulk`
(prediction_service.py lines 104-148): loops `bulk_step` over the
requested ids and assembles the summary; `average_delay_probability`
is `np.mean` over the successful predictions, 0 when there are none. -/
def predict_payment_delay_bulk (single : String → Option DelayPrediction)
    (customer_ids : List String) : BulkResult :=
  let out := customer_ids.foldl (bulk_step single) ([], 0, 0, 0)
  let predictions := out.1
  { predictions := predictions
    summary :=
      { total_customers := customer_ids.length
        successful_predictions := predictions.length
        high_risk_customers := out.2.1
        medium_risk_customers := out.2.2.1
        low_risk_customers := out.2.2.2
        average_delay_probability :=
          if predictions = [] then 0
          else (predictions.map DelayPrediction.delay_probability).sum
                  / (predictions.length : ℚ) } }

/-! ### PredictionService: inventory demand forecasting
(`services/prediction_service.py` lines 154-217 and 395-403) -/

/-- Truncation of a rational toward zero, the behaviour of the Python
`int()` conversion on a float. -/
def py_int (q : ℚ) : ℤ := if 0 ≤ q then ⌊q⌋ else -⌊-q⌋

/-- Embeds `PredictionService._calculate_average_daily_demand`
(prediction_service.py lines 395-403).  A sale record is `(date,
quantity)`, with dates as abstract day identifiers; the demand is
total quantity divided by the number of distinct sale dates (at least
1), and an empty history defaults to 1.0. -/
def calculate_average_daily_demand (sales : List (ℕ × ℤ)) : ℚ :=
  if sales = [] then 1
  else
    let total_quantity : ℤ := (sales.map Prod.snd).sum
    let days : ℕ := (sales.map Prod.fst).dedup.length
    (total_quantity : ℚ) / ((max days 1 : ℕ) : ℚ)

/-- Embeds one entry of the per-day forecast built in
`forecast_inventory_demand` (lines 179-193): `day` is the day offset
from today, `predicted_demand` is `max(0, int(base_demand))`. -/
structure ForecastDay where
  day : ℕ
  predicted_demand : ℤ
deriving Repr, DecidableEq

/-- Embeds the reorder recommendation of `forecast_inventory_demand`
(lines 195-209). -/
structure ReorderRecommendation where
  should_reorder : Bool
  recommended_quantity : ℤ
deriving Repr, DecidableEq

/-- Embeds the per-item result of `forecast_inventory_demand`
(lines 199-211), restricted to the numeric fields. -/
structure ItemForecast where
  current_stock : ℤ
  predicted_demand : List ForecastDay
  reorder_recommendation : ReorderRecommendation
deriving Repr, DecidableEq

/-- Embeds the per-item body of
`PredictionService.forecast_inventory_demand` (prediction_service.py
lines 174-211).  `seasonal_factor` abstracts `_get_seasonal_factor` as
a function of the forecast day offset; when `include_seasonality` is
false it is not consulted, matching the source.  Per day the predicted
demand is `max(0, int(base_demand))`; the reorder point is `max(0,
total_predicted_demand - current_stock)` and `should_reorder` is
`reorder_point > 0`. -/
def forecast_inventory_demand_item (current_stock : ℤ) (avg_daily_demand : ℚ)
    (days_ahead : ℕ) (include_seasonality : Bool) (seasonal_factor : ℕ → ℚ) :
    ItemForecast :=
  let forecast_data := (List.range' 1 days_ahead).map (fun day =>
    let base_demand :=
      if include_seasonality then avg_daily_demand * seasonal_factor day
      else avg_daily_demand
    ({ day := day, predicted_demand := max 0 (py_int base_demand) } : ForecastDay))
  let total_predicted_demand := (forecast_data.map ForecastDay.predicted_demand).sum
  let reorder_point := max 0 (total_predicted_demand - current_stock)
  { current_stock := current_stock
    predicted_demand := forecast_data
    reorder_recommendation :=
      { should_reorder := decide (reorder_point > 0)
        recommended_quantity := reorder_point } }

/-! ### BaseMLModel: training, persistence and prediction lifecycle
(`models/base_model.py`) -/

/-- Embeds a fitted scikit-learn estimator, abstracted to what the
lifecycle code observes: whether it has a `predict_proba` attribute
(classifiers do, regressors do not) and an abstract prediction
output. -/
structure Estimator where
  supports_proba : Bool
  output : ℤ
deriving Repr, DecidableEq

/-- Embeds the `model_metadata` dict written by `BaseMLModel.train`
(base_model.py lines 110-123), restricted to the fields the lifecycle
reads back: `load_model` restores `feature_columns` and
`target_column` from it. -/
structure ModelMetadata where
  feature_columns : List String
  target_column : String
  training_data_size : ℕ
deriving Repr, DecidableEq

/-- Embeds the in-memory state of a `BaseMLModel` instance:
`is_trained`, the estimator, the feature columns and the metadata dict
(base_model.py lines 25-45). -/
structure ModelState where
  is_trained : Bool
  model : Option Estimator
  feature_columns : List String
  model_metadata : Option ModelMetadata
deriving Repr, DecidableEq

/-- Embeds the persisted artifact: the joblib file at `model_path` and
the JSON file at `metadata_path` (base_model.py lines 36-43). -/
structure Disk where
  model_file : Option Estimator
  metadata_file : Option ModelMetadata
deriving Repr, DecidableEq

/-- Embeds `BaseMLModel.save_model` (base_model.py lines 173-190).
Refuses to save an untrained model before touching the disk; otherwise
dumps the estimator and then writes the metadata.  `dump_ok` and
`meta_ok` parameterize I/O success of the two writes; a failure raises
(the `Option String` component) and leaves the remaining writes
undone. -/
def save_model (st : ModelState) (disk : Disk) (dump_ok meta_ok : Bool) :
    Option String × Disk :=
  if st.is_trained = false then (some "Cannot save untrained model", disk)
  else if dump_ok = false then (some "joblib.dump failed", disk)
  else
    let disk1 : Disk := { disk with model_file := st.model }
    if meta_ok = false then (some "metadata write failed", disk1)
    else (none, { disk1 with metadata_file := st.model_metadata })

/-- Embeds `BaseMLModel.load_model` (base_model.py lines 192-216).
Only when both the model file and the metadata file exist does it load
them, restore `feature_columns` from the metadata and set
`is_trained`; otherwise it returns `False` leaving the state
unchanged. -/
def load_model (st : ModelState) (disk : Disk) : ModelState × Bool :=
  match disk.model_file, disk.metadata_file with
  | some m, some meta =>
    ({ st with model := some m,
               model_metadata := some meta,
               feature_columns := meta.feature_columns,
               is_trained := true }, true)
  | _, _ => (st, false)

/-- Embeds the `ValueError`s raised by `BaseMLModel.predict` /
`predict_proba`: the model is not trained (lines 147-148, 161-162), or
it lacks a `predict_proba` attribute (lines 164-165).  `nullModel`
covers the state `is_trained` with no estimator, unreachable along the
public API. -/
inductive PredictError where
  | notTrained : PredictError
  | noProbaSupport : PredictError
  | nullModel : PredictError
deriving Repr, DecidableEq

/-- Embeds `BaseMLModel.predict` (base_model.py lines 142-154): when
untrained, first attempts a lazy `load_model`; if still untrained,
raises; else runs the estimator. -/
def predict (st : ModelState) (disk : Disk) : Except PredictError ℤ × ModelState :=
  let st1 := if st.is_trained = false then (load_model st disk).1 else st
  if st1.is_trained = false then (.error .notTrained, st1)
  else
    match st1.model with
    | some m => (.ok m.output, st1)
    | none => (.error .nullModel, st1)

/-- Embeds `BaseMLModel.predict_proba` (base_model.py lines 156-171):
as `predict`, with an additional check that the estimator has a
`predict_proba` attribute. -/
def predict_proba (st : ModelState) (disk : Disk) : Except PredictError ℤ × ModelState :=
  let st1 := if st.is_trained = false then (load_model st disk).1 else st
  if st1.is_trained = false then (.error .notTrained, st1)
  else
    match st1.model with
    | some m =>
      if m.supports_proba = false then (.error .noProbaSupport, st1)
      else (.ok m.output, st1)
    | none => (.error .nullModel, st1)

/-- Embeds `BaseMLModel.train` (base_model.py lines 66-140).  After
the data size check, fitting and metadata construction are abstracted
by the `fitted` estimator and `meta` dict; the method then sets
`is_trained = True` (line 129) and only afterwards calls `save_model`
(line 132); a save failure propagates out of `train`
(lines 138-140). -/
def train (st : ModelState) (disk : Disk) (data_size min_size : ℕ)
    (fitted : Estimator) (meta : ModelMetadata) (dump_ok meta_ok : Bool) :
    Except String ModelMetadata × ModelState × Disk :=
  if data_size < min_size then (.error "Insufficient training data", st, disk)
  else
    let st1 := { st with model := some fitted,
                         feature_columns := meta.feature_columns,
                         model_metadata := some meta }
    let st2 := { st1 with is_trained := true }
    match save_model st2 disk dump_ok meta_ok with
    | (some err, disk1) => (.error err, st2, disk1)
    | (none, disk1) => (.ok meta, st2, disk1)

/-! ### TrainingService: the in-flight training guard
(`services/training_service.py` lines 132-190) -/

/-- Embeds the possible outcomes of the body of
`TrainingService._train_model` once the in-flight guard has passed:
the recency check returns early (lines 145-154), the data-availability
check fails (lines 156-162), `model.train` completes (lines 164-181),
or `model.train` raises and the except clause returns a failed status
(lines 183-188). -/
inductive TrainAttemptOutcome where
  | recentEnough : TrainAttemptOutcome
  | insufficientData (count : ℕ) : TrainAttemptOutcome
  | trainSucceeded : TrainAttemptOutcome
  | trainRaised (msg : String) : TrainAttemptOutcome
deriving Repr, DecidableEq

/-- Embeds the status/reason dicts returned by
`TrainingService._train_model`. -/
structure TrainModelResult where
  status : String
  reason : String
deriving Repr, DecidableEq

/-- Embeds `TrainingService._train_model` (training_service.py lines
132-190).  `in_progress` is the process-wide `training_in_progress`
key set; a request for a variant already present returns skipped
without entering the body (lines 134-138); otherwise the variant is
inserted (line 141), the body runs (abstracted by `outcome`, which is
only consulted after the insert), and the `finally` clause pops the
variant (line 190).  The third component reports whether
`model.train` was invoked. -/
def train_model_service (in_progress : List String) (model_type : String)
    (outcome : TrainAttemptOutcome) : TrainModelResult × List String × Bool :=
  if model_type ∈ in_progress then
    ({ status := "skipped", reason := "Training already in progress" },
     in_progress, false)
  else
    let in1 := model_type :: in_progress
    let res : TrainModelResult × Bool :=
      match outcome with
      | .recentEnough =>
        ({ status := "skipped", reason := "Model is recent enough" }, false)
      | .insufficientData _ =>
        ({ status := "failed", reason := "Insufficient training data" }, false)
      | .trainSucceeded => ({ status := "success", reason := "" }, true)
      | .trainRaised e => ({ status := "failed", reason := e }, true)
    (res.1, in1.erase model_type, res.2)

/-! ### PaymentDelayPredictor.prepare_features: categorical encoders
and the numeric scaler (`models/payment_prediction.py` lines 140-166
and 198-205) -/

/-- Embeds the scikit-learn `LabelEncoder` as used by
`PaymentDelayPredictor.prepare_features`: fitting stores the sorted
distinct classes. -/
structure LabelEncoder where
  classes_ : List String
deriving Repr, DecidableEq

/-- Embeds `LabelEncoder.fit_transform`: stores the sorted distinct
classes of the column and encodes each value by its index among
them. -/
def label_encoder_fit_transform (values : List String) : LabelEncoder × List ℕ :=
  let classes := List.insertionSort (fun a b => a ≤ b) values.dedup
  (⟨classes⟩, values.map (fun v => classes.indexOf v))

/-- Embeds `LabelEncoder.transform`: encodes against the stored
classes and raises a `ValueError` (`none`) on any value not seen
during fitting. -/
def LabelEncoder.transform (enc : LabelEncoder) (values : List String) :
    Option (List ℕ) :=
  if values.all (fun v => enc.classes_.contains v) then
    some (values.map (fun v => enc.classes_.indexOf v))
  else none

/-- Embeds the categorical encoding step of
`PaymentDelayPredictor.prepare_features` for one column
(payment_prediction.py lines 140-166, identical for
`customerCategory` and `paymentMethod`): missing values are filled
with the string "Unknown" (`fillna`); on the first call (no stored
encoder) a `LabelEncoder` is fit on the column; on later calls the
stored encoder is reused and its `transform` is applied, which raises
(`none`) on categories not seen at fit time. -/
def encode_categorical_column (stored : Option LabelEncoder)
    (column : List (Option String)) : Option (LabelEncoder × List ℕ) :=
  let filled := column.map (fun v => v.getD "Unknown")
  match stored with
  | none => some (label_encoder_fit_transform filled)
  | some enc =>
    match enc.transform filled with
    | some codes => some (enc, codes)
    | none => none

/-- Embeds the fitted state of a scikit-learn `StandardScaler` for one
numeric column: the stored column mean and the scale (the square root
of the variance, replaced by 1 when the variance is 0). -/
structure StandardScaler where
  mean_ : ℚ
  scale_ : ℚ
deriving Repr, DecidableEq

/-- Mean of a list of rationals (`np.mean`). -/
def list_mean (xs : List ℚ) : ℚ := xs.sum / (xs.length : ℚ)

/-- Population variance of a list of rationals, the statistic
`StandardScaler` fits. -/
def list_var (xs : List ℚ) : ℚ :=
  let m := list_mean xs
  ((xs.map (fun x => (x - m) ^ 2)).sum) / (xs.length : ℚ)

/-- Embeds `StandardScaler.fit`: stores the column mean and the
square-root-of-variance scale.  `sqrtFn` abstracts the floating-point
square root. -/
def scaler_fit (sqrtFn : ℚ → ℚ) (xs : List ℚ) : StandardScaler :=
  let v := list_var xs
  { mean_ := list_mean xs, scale_ := if v = 0 then 1 else sqrtFn v }

/-- Embeds `StandardScaler.transform`: `(x - mean_) / scale_`. -/
def StandardScaler.transform (s : StandardScaler) (xs : List ℚ) : List ℚ :=
  xs.map (fun x => (x - s.mean_) / s.scale_)

/-- Embeds the numeric scaling step at the end of
`PaymentDelayPredictor.prepare_features` (payment_prediction.py lines
198-205): `self.scaler.fit_transform(...)` is called on every call,
training or prediction alike, so the previously fitted statistics
(`scaler`, `none` when the scaler has never been fit) are discarded
and the input column is standardized against itself. -/
def prepare_features_scale_step (sqrtFn : ℚ → ℚ) (scaler : Option StandardScaler)
    (xs : List ℚ) : Option StandardScaler × List ℚ :=
  let s1 := scaler_fit sqrtFn xs
  (some s1, s1.transform xs)

/-- Exact square root on the concrete variances appearing in the
training column `[1, 3]` (variance 1) and the prediction column
`[10, 14]` (variance 4); the floating-point square root of the source
is exact on these values. -/
def sqrt_exact (q : ℚ) : ℚ := if q = 1 then 1 else if q = 4 then 2 else 0

/-! ## Theorems -/

/-- Helper: the loop of `predict_payment_delay_bulk` collects exactly
the successful predictions in order and counts tiers over them, for
any starting accumulator. -/
theorem bulk_fold_spec (single : String → Option DelayPrediction) (ids : List String)
    (acc : List DelayPrediction × ℕ × ℕ × ℕ) :
    ids.foldl (bulk_step single) acc =
      (acc.1 ++ ids.filterMap single,
       acc.2.1 + (ids.filterMap single).countP (fun p => decide (p.risk_level = "High")),
       acc.2.2.1 + (ids.filterMap single).countP
         (fun p => decide (p.risk_level ≠ "High" ∧ p.risk_level = "Medium")),
       acc.2.2.2 + (ids.filterMap single).countP
         (fun p => decide (p.risk_level ≠ "High" ∧ p.risk_level ≠ "Medium"))) := by
  induction ids generalizing acc with
  | nil => simp
  | cons i rest ih =>
    simp only [List.foldl_cons, List.filterMap_cons]
    cases h : single i with
    | none => simp [bulk_step, h, ih]
    | some p =>
      simp only [bulk_step, h]
      rw [ih]
      by_cases hH : p.risk_level = "High"
      · simp [hH, List.countP_cons]
        omega
      · by_cases hM : p.risk_level = "Medium"
        · simp [hH, hM, List.countP_cons]
          omega
        · simp [hH, hM, List.countP_cons]
          omega

/-- Claim C1, counterexample: on a never-trained manager with an empty
disk, a `train` run whose model dump fails ends with `is_trained =
true` and nothing durably written — the manager marked itself trained
before the persistence step, so the claimed ordering (persist before
publishing the trained state) is false on the code. -/
theorem c1_counterexample_trained_before_persist :
    (train ⟨false, none, [], none⟩ ⟨none, none⟩ 100 10 ⟨true, 1⟩
        ⟨["f"], "t", 100⟩ false false).1 = .error "joblib.dump failed" ∧
    (train ⟨false, none, [], none⟩ ⟨none, none⟩ 100 10 ⟨true, 1⟩
        ⟨["f"], "t", 100⟩ false false).2.1.is_trained = true ∧
    (train ⟨false, none, [], none⟩ ⟨none, none⟩ 100 10 ⟨true, 1⟩
        ⟨["f"], "t", 100⟩ false false).2.2 = ⟨none, none⟩ :=
  ⟨rfl, rfl, rfl⟩

/-- Claim C1, amended: in `train()` the transition to the trained
state precedes persistence.  With sufficient data the final in-memory
state is always `is_trained = true`; if the model dump fails the error
propagates out of `train` and the previous artifact on disk is left
untouched (but the manager is already marked trained); if the dump
succeeds and the metadata write fails, the new estimator file is on
disk without its metadata; only when both writes succeed does `train`
return the metadata and the disk hold the new pair. -/
theorem c1_amended_publish_then_persist (st : ModelState) (disk : Disk)
    (data_size min_size : ℕ) (fitted : Estimator) (meta : ModelMetadata)
    (dump_ok meta_ok : Bool) (hsize : min_size ≤ data_size) :
    ((train st disk data_size min_size fitted meta dump_ok meta_ok).2.1.is_trained = true) ∧
    ((train st disk data_size min_size fitted meta false meta_ok).1 =
        .error "joblib.dump failed" ∧
      (train st disk data_size min_size fitted meta false meta_ok).2.2 = disk) ∧
    ((train st disk data_size min_size fitted meta true false).1 =
        .error "metadata write failed" ∧
      (train st disk data_size min_size fitted meta true false).2.2 =
        { disk with model_file := some fitted }) ∧
    ((train st disk data_size min_size fitted meta true true).1 = .ok meta ∧
      (train st disk data_size min_size fitted meta true true).2.2 =
        { model_file := some fitted, metadata_file := some meta }) := by
  have hn : ¬ data_size < min_size := by omega
  refine ⟨?_, ⟨?_, ?_⟩, ⟨?_, ?_⟩, ?_, ?_⟩
  · cases dump_ok <;> cases meta_ok <;> simp [train, save_model, hn]
  all_goals simp [train, save_model, hn]

/-- Witness for the amended claim C1 at a concrete input. -/
theorem c1_amended_publish_then_persist_witness :
    10 ≤ 100 ∧
    (train ⟨false, none, [], none⟩ ⟨none, none⟩ 100 10 ⟨true, 1⟩
        ⟨["f"], "t", 100⟩ true true).2.1.is_trained = true :=
  ⟨by decide,
   (c1_amended_publish_then_persist ⟨false, none, [], none⟩ ⟨none, none⟩
      100 10 ⟨true, 1⟩ ⟨["f"], "t", 100⟩ true true (by decide)).1⟩

/-- Claim C2, evaluated at a failing input: with the
`customerCategory` encoder fit on the classes Retail and Wholesale, a
prediction-time record with the unseen category VIP makes the encoding
step of `prepare_features` raise (`none`) instead of mapping the value
to a reserved unknown code — while a seen category encodes fine.
There is no reserved unknown code in the code path. -/
theorem c2_unseen_category_raises :
    encode_categorical_column
      (some (label_encoder_fit_transform ["Retail", "Wholesale"]).1)
      [some "VIP"] = none ∧
    encode_categorical_column
      (some (label_encoder_fit_transform ["Retail", "Wholesale"]).1)
      [some "Retail"] =
      some ((label_encoder_fit_transform ["Retail", "Wholesale"]).1, [0]) := by
  have hle : (['R', 'e', 't', 'a', 'i', 'l'] ≤
      ['W', 'h', 'o', 'l', 'e', 's', 'a', 'l', 'e']) := by decide
  constructor <;>
    simp [encode_categorical_column, LabelEncoder.transform,
      label_encoder_fit_transform, List.insertionSort, List.orderedInsert,
      List.dedup, List.indexOf, List.findIdx, List.findIdx.go, hle]

/-- Claim C3, counterexample: with credit limit 1000, outstanding 900
and a payment history with no late payments, `assess_customer_risk`
does not return `(0.3, "Low")` — the outstanding-amount factor
(outstanding > 0.5 × credit limit) also fires. -/
theorem c3_counterexample :
    assess_customer_risk 1000 900 (List.replicate 5 false) ≠ ((3:ℚ)/10, "Low") := by
  norm_num [assess_customer_risk, List.countP, List.countP.go, List.replicate]

/-- Claim C3, amended: with credit limit 1000, outstanding 900
(utilization 0.9 > 0.8 adds 0.3; outstanding 900 > 0.5 × 1000 adds
0.2) and a payment history with no late payments,
`assess_customer_risk` returns risk score 0.5 and risk level
"Medium". -/
theorem c3_amended_risk_score :
    assess_customer_risk 1000 900 (List.replicate 5 false) = ((1:ℚ)/2, "Medium") := by
  norm_num [assess_customer_risk, List.countP, List.countP.go, List.replicate]

/-- Claim C4: for every delay probability, the payment-delay path
returns risk level "Low" exactly below 0.4, "Medium" exactly on
[0.4, 0.7), "High" exactly from 0.7 up (lower bounds inclusive), and
the confidence score equals `max p (1 - p)`. -/
theorem c4_risk_tier_boundaries (p : ℚ) :
    ((predict_payment_delay_response p).risk_level = "Low" ↔ p < 2/5) ∧
    ((predict_payment_delay_response p).risk_level = "Medium" ↔ 2/5 ≤ p ∧ p < 7/10) ∧
    ((predict_payment_delay_response p).risk_level = "High" ↔ 7/10 ≤ p) ∧
    (predict_payment_delay_response p).confidence_score = max p (1 - p) := by
  show (calculate_risk_level p = "Low" ↔ _) ∧ (calculate_risk_level p = "Medium" ↔ _) ∧
    (calculate_risk_level p = "High" ↔ _) ∧ _
  unfold calculate_risk_level
  by_cases h1 : p ≥ 7/10
  · rw [if_pos h1]
    exact ⟨⟨fun h => absurd h (by decide), fun h => absurd h (by linarith)⟩,
           ⟨fun h => absurd h (by decide), fun h => absurd h.2 (by linarith)⟩,
           ⟨fun _ => h1, fun _ => rfl⟩, rfl⟩
  · rw [if_neg h1]
    push_neg at h1
    by_cases h2 : p ≥ 4/10
    · rw [if_pos h2]
      exact ⟨⟨fun h => absurd h (by decide), fun h => absurd h (by linarith)⟩,
             ⟨fun _ => ⟨by linarith, h1⟩, fun _ => rfl⟩,
             ⟨fun h => absurd h (by decide), fun h => absurd h (by linarith)⟩, rfl⟩
    · rw [if_neg h2]
      push_neg at h2
      exact ⟨⟨fun _ => by linarith, fun _ => rfl⟩,
             ⟨fun h => absurd h (by decide), fun h => absurd h.1 (by linarith)⟩,
             ⟨fun h => absurd h (by decide), fun h => absurd h (by linarith)⟩, rfl⟩

/-- Claim C5: a training request for a variant whose id is already in
the process-wide in-flight set returns skipped with reason
"Training already in progress", leaves the set unchanged, and does not
invoke `model.train`; and for a variant not in flight, every attempt —
early skip, insufficient data, success, or exception — removes the
variant from the set on completion, restoring the set to its previous
contents. -/
theorem c5_single_training_run_guard (in_progress : List String)
    (model_type : String) (outcome : TrainAttemptOutcome) :
    (model_type ∈ in_progress →
      train_model_service in_progress model_type outcome =
        ({ status := "skipped", reason := "Training already in progress" },
         in_progress, false)) ∧
    (model_type ∉ in_progress →
      (train_model_service in_progress model_type outcome).2.1 = in_progress ∧
      model_type ∉ (train_model_service in_progress model_type outcome).2.1) := by
  constructor
  · intro h
    simp [train_model_service, h]
  · intro h
    have heq : (train_model_service in_progress model_type outcome).2.1 = in_progress := by
      cases outcome <;> simp [train_model_service, h]
    exact ⟨heq, by rw [heq]; exact h⟩

/-- Witness for claim C5 at concrete inputs: a second request while in
flight is skipped without state change, and a completed attempt
returns the set to empty. -/
theorem c5_single_training_run_guard_witness :
    train_model_service ["payment_delay"] "payment_delay" .trainSucceeded =
      ({ status := "skipped", reason := "Training already in progress" },
       ["payment_delay"], false) ∧
    (train_model_service [] "payment_delay" (.trainRaised "boom")).2.1 = [] :=
  ⟨(c5_single_training_run_guard ["payment_delay"] "payment_delay"
      .trainSucceeded).1 (by decide),
   ((c5_single_training_run_guard [] "payment_delay"
      (.trainRaised "boom")).2 (by decide)).1⟩

/-- Claim C6: `predict` (and `predict_proba`) on an untrained variant
first attempts a lazy load — with no complete persisted artifact the
call fails with the not-trained error, while a complete artifact makes
it succeed; the identical call after a successful `train` succeeds;
and `predict_proba` on a trained estimator without a probability
interface fails with the unsupported-operation error. -/
theorem c6_predict_lazy_load_and_errors :
    (∀ st disk, st.is_trained = false →
      disk.model_file = none ∨ disk.metadata_file = none →
      (predict st disk).1 = .error .notTrained ∧
      (predict_proba st disk).1 = .error .notTrained) ∧
    (∀ st m meta, st.is_trained = false →
      (predict st ⟨some m, some meta⟩).1 = .ok m.output) ∧
    (∀ st disk data_size min_size fitted meta, min_size ≤ data_size →
      (predict (train st disk data_size min_size fitted meta true true).2.1
               (train st disk data_size min_size fitted meta true true).2.2).1 =
        .ok fitted.output) ∧
    (∀ st disk m, st.is_trained = true → st.model = some m →
      m.supports_proba = false →
      (predict_proba st disk).1 = .error .noProbaSupport) := by
  refine ⟨?_, ?_, ?_, ?_⟩
  · intro st disk h hd
    obtain ⟨mf, sf⟩ := disk
    rcases hd with hd | hd <;> subst hd
    · constructor <;> simp [predict, predict_proba, load_model, h]
    · cases mf <;> constructor <;> simp [predict, predict_proba, load_model, h]
  · intro st m meta h
    simp [predict, load_model, h]
  · intro st disk data_size min_size fitted meta hsize
    have hn : ¬ data_size < min_size := by omega
    simp [train, save_model, predict, hn]
  · intro st disk m h hm hp
    simp [predict_proba, h, hm, hp]

/-- Witness for claim C6 at concrete inputs: an untrained manager with
an empty disk raises not-trained; with a full artifact the lazy load
succeeds; predict after a successful train succeeds; a trained
regressor raises on `predict_proba`. -/
theorem c6_predict_lazy_load_and_errors_witness :
    (predict ⟨false, none, [], none⟩ ⟨none, none⟩).1 = .error .notTrained ∧
    (predict ⟨false, none, [], none⟩
        ⟨some ⟨true, 7⟩, some ⟨["f"], "t", 5⟩⟩).1 = .ok 7 ∧
    (predict (train ⟨false, none, [], none⟩ ⟨none, none⟩ 100 10 ⟨true, 42⟩
        ⟨["f"], "t", 100⟩ true true).2.1
      (train ⟨false, none, [], none⟩ ⟨none, none⟩ 100 10 ⟨true, 42⟩
        ⟨["f"], "t", 100⟩ true true).2.2).1 = .ok 42 ∧
    (predict_proba ⟨true, some ⟨false, 3⟩, [], none⟩ ⟨none, none⟩).1 =
      .error .noProbaSupport := by
  obtain ⟨ha, hb, hc, hd⟩ := c6_predict_lazy_load_and_errors
  exact ⟨(ha ⟨false, none, [], none⟩ ⟨none, none⟩ rfl (Or.inl rfl)).1,
         hb ⟨false, none, [], none⟩ ⟨true, 7⟩ ⟨["f"], "t", 5⟩ rfl,
         hc ⟨false, none, [], none⟩ ⟨none, none⟩ 100 10 ⟨true, 42⟩
           ⟨["f"], "t", 100⟩ (by decide),
         hd ⟨true, some ⟨false, 3⟩, [], none⟩ ⟨none, none⟩ ⟨false, 3⟩ rfl rfl rfl⟩

/-- Claim C7: the bulk path skips failing ids, reports
`total_customers` as the input length, `successful_predictions` as the
number of returned predictions, tier counts over successes only, and
the mean delay probability over successes (0 when none); on
`[validId, invalidId]` it returns one prediction with
`total_customers = 2` and `successful_predictions = 1`. -/
theorem c7_bulk_prediction_summary (single : String → Option DelayPrediction)
    (ids : List String) :
    ((predict_payment_delay_bulk single ids).summary.total_customers = ids.length ∧
     (predict_payment_delay_bulk single ids).predictions = ids.filterMap single ∧
     (predict_payment_delay_bulk single ids).summary.successful_predictions =
       (predict_payment_delay_bulk single ids).predictions.length ∧
     (predict_payment_delay_bulk single ids).summary.high_risk_customers =
       (predict_payment_delay_bulk single ids).predictions.countP
         (fun p => decide (p.risk_level = "High")) ∧
     (predict_payment_delay_bulk single ids).summary.medium_risk_customers =
       (predict_payment_delay_bulk single ids).predictions.countP
         (fun p => decide (p.risk_level ≠ "High" ∧ p.risk_level = "Medium")) ∧
     (predict_payment_delay_bulk single ids).summary.low_risk_customers =
       (predict_payment_delay_bulk single ids).predictions.countP
         (fun p => decide (p.risk_level ≠ "High" ∧ p.risk_level ≠ "Medium")) ∧
     (predict_payment_delay_bulk single ids).summary.average_delay_probability =
       (if (predict_payment_delay_bulk single ids).predictions = [] then 0
        else ((predict_payment_delay_bulk single ids).predictions.map
               DelayPrediction.delay_probability).sum /
             ((predict_payment_delay_bulk single ids).predictions.length : ℚ))) ∧
    ((predict_payment_delay_bulk
        (fun s => if s = "valid" then some ⟨1/2, "Medium"⟩ else none)
        ["valid", "invalid"]).predictions.length = 1 ∧
     (predict_payment_delay_bulk
        (fun s => if s = "valid" then some ⟨1/2, "Medium"⟩ else none)
        ["valid", "invalid"]).summary.total_customers = 2 ∧
     (predict_payment_delay_bulk
        (fun s => if s = "valid" then some ⟨1/2, "Medium"⟩ else none)
        ["valid", "invalid"]).summary.successful_predictions = 1) := by
  constructor
  · simp only [predict_payment_delay_bulk, bulk_fold_spec]
    simp
  · simp only [predict_payment_delay_bulk, bulk_fold_spec]
    simp [List.filterMap]

/-- Claim C8: every forecast satisfies `recommended_quantity = max 0
(sum of per-day predicted demand - current_stock)` with
`should_reorder` true exactly when the quantity is positive; the
concrete run (stock 50, flat demand 2, 30 days, no seasonality)
predicts total demand 60 and recommends reordering 10; an empty sales
history defaults to an average daily demand of 1. -/
theorem c8_reorder_recommendation (stock : ℤ) (avg : ℚ) (days : ℕ) (seas : Bool)
    (sf : ℕ → ℚ) :
    ((forecast_inventory_demand_item stock avg days seas sf).reorder_recommendation.recommended_quantity
      = max 0 ((((forecast_inventory_demand_item stock avg days seas sf).predicted_demand.map
          ForecastDay.predicted_demand).sum) - stock) ∧
     ((forecast_inventory_demand_item stock avg days seas sf).reorder_recommendation.should_reorder = true ↔
       (forecast_inventory_demand_item stock avg days seas sf).reorder_recommendation.recommended_quantity > 0)) ∧
    ((forecast_inventory_demand_item 50 2 30 false sf).predicted_demand.map
      ForecastDay.predicted_demand).sum = 60 ∧
    (forecast_inventory_demand_item 50 2 30 false sf).reorder_recommendation =
      { should_reorder := true, recommended_quantity := 10 } ∧
    calculate_average_daily_demand [] = 1 := by
  have hsum : ((forecast_inventory_demand_item 50 2 30 false sf).predicted_demand.map
      ForecastDay.predicted_demand).sum = 60 := by
    simp [forecast_inventory_demand_item, py_int]
    norm_num [List.range']
  refine ⟨⟨rfl, by simp [forecast_inventory_demand_item]⟩, hsum, ?_,
    by simp [calculate_average_daily_demand]⟩
  simp only [forecast_inventory_demand_item] at hsum ⊢
  rw [hsum]
  norm_num

/-- Claim C9, evaluated at a failing input: a training call on the
column `[1, 3]` fits scaler statistics (mean 2, scale 1), but the next
`prepare_features` call on the prediction column `[10, 14]` refits the
scaler to (mean 12, scale 2) and returns `[-1, 1]` — the input
standardized against itself — instead of `[8, 12]`, the input
standardized with the statistics fit during training.  The training
statistics are not frozen. -/
theorem c9_scaler_refit_at_prediction :
    (prepare_features_scale_step sqrt_exact none [1, 3]).1 =
      some { mean_ := 2, scale_ := 1 } ∧
    (prepare_features_scale_step sqrt_exact
        (prepare_features_scale_step sqrt_exact none [1, 3]).1 [10, 14]).1 =
      some { mean_ := 12, scale_ := 2 } ∧
    (prepare_features_scale_step sqrt_exact
        (prepare_features_scale_step sqrt_exact none [1, 3]).1 [10, 14]).2 =
      [-1, 1] ∧
    StandardScaler.transform { mean_ := 2, scale_ := 1 } [10, 14] = [8, 12] ∧
    (prepare_features_scale_step sqrt_exact
        (prepare_features_scale_step sqrt_exact none [1, 3]).1 [10, 14]).2 ≠
      StandardScaler.transform { mean_ := 2, scale_ := 1 } [10, 14] := by
  norm_num [prepare_features_scale_step, scaler_fit, list_mean, list_var,
    StandardScaler.transform, sqrt_exact]

/-- Claim C10: `save_model` on a never-trained manager raises
immediately and writes nothing — the disk is returned unchanged
whatever the I/O outcome flags. -/
theorem c10_save_untrained_writes_nothing (st : ModelState) (disk : Disk)
    (dump_ok meta_ok : Bool) (h : st.is_trained = false) :
    save_model st disk dump_ok meta_ok = (some "Cannot save untrained model", disk) := by
  simp [save_model, h]

/-- Witness for claim C10 at a concrete input. -/
theorem c10_save_untrained_writes_nothing_witness :
    (⟨false, none, [], none⟩ : ModelState).is_trained = false ∧
    save_model ⟨false, none, [], none⟩ ⟨none, none⟩ true true =
      (some "Cannot save untrained model", ⟨none, none⟩) :=
  ⟨rfl, c10_save_untrained_writes_nothing ⟨false, none, [], none⟩ ⟨none, none⟩
    true true rfl⟩

end MLService
